/-
Verification of the SpeakCycle TikTok uploader (`tiktok_uploader.py`)
against its natural-language specification.

Shallow embedding: HTTP exchanges are modelled as explicit response data
passed in (the environment), side effects (sleeps, console printing, raw
response bodies echoed into `details` fields) are not observable in the
claims and are left out; request *counts* and the bodies the code builds
are recorded in explicit traces so that "no PUT was issued" style claims
are statable.  Python strings are Lean `String`s (per-code-point slicing
is via `String.data`), bytes are `List Nat`, JSON dictionaries become
structures with `Option` fields (a missing key is `none`).
-/
import Mathlib

namespace SpeakCycle

/-! ## Status poller (Step 3 of `upload_video_direct`, lines 455-497)

One status-fetch response: `status_code` is the HTTP code, `status` is
`response.json().get('data',{}).get('status')` (absent key → `none`), and
`fail_reason` is `...get('fail_reason')` before the `'Unknown'` default is
applied. -/
structure StatusResp where
  status_code : Nat
  status : Option String
  fail_reason : Option String
deriving Repr, DecidableEq

/-- Result dictionary returned by `upload_video_direct`.  Python returns ad
hoc dicts with varying keys; an absent key is `none`.  The `details` values
(raw response echoes) are diagnostic payloads not modelled here. -/
structure UploadResult where
  success : Bool
  publish_id : Option String
  status : Option String
  error : Option String
  note : Option String
deriving Repr, DecidableEq

/-- The `for i in range(10)` poll loop.  `fetch i` is the response of the
status-fetch POST made on iteration `i`; `pid` is the `publish_id` taken
from the init response.  Returns the result together with the number of
status-fetch requests performed.  The `time.sleep(3)` / `time.sleep(2)`
calls are unobservable and dropped; both non-terminal branches continue
the loop exactly as in the source. -/
def statusCheckLoop (fetch : Nat → StatusResp) (pid : Option String) :
    Nat → Nat → UploadResult × Nat
  | _, 0 =>
    -- loop exhausted: `{'success': True, 'publish_id': ..., 'status': 'PROCESSING', 'note': ...}`
    ({ success := true, publish_id := pid, status := some "PROCESSING",
       error := none, note := some "Video is being processed by TikTok" }, 0)
  | i, fuel + 1 =>
    let resp := fetch i
    if resp.status_code == 200 && resp.status == some "PUBLISH_COMPLETE" then
      ({ success := true, publish_id := pid, status := resp.status,
         error := none, note := none }, 1)
    else if resp.status_code == 200 && resp.status == some "FAILED" then
      ({ success := false, publish_id := pid, status := none,
         error := some ("Publish failed: " ++ resp.fail_reason.getD "Unknown"),
         note := none }, 1)
    else if resp.status_code == 200 &&
        (resp.status == some "PROCESSING_UPLOAD" ||
         resp.status == some "PROCESSING_DOWNLOAD" ||
         resp.status == some "SENDING_TO_USER_INBOX") then
      -- time.sleep(3); continue
      let r := statusCheckLoop fetch pid (i + 1) fuel
      (r.1, r.2 + 1)
    else
      -- falls through to time.sleep(2) and the next iteration
      let r := statusCheckLoop fetch pid (i + 1) fuel
      (r.1, r.2 + 1)

/-- A poll response is terminal when the transport succeeded and the
reported status is `PUBLISH_COMPLETE` or `FAILED`. -/
def isTerminal (r : StatusResp) : Bool :=
  r.status_code == 200 &&
    (r.status == some "PUBLISH_COMPLETE" || r.status == some "FAILED")

/-- Non-terminal responses make the loop recurse, consuming one fetch per
iteration, until the fuel runs out. -/
theorem statusCheckLoop_nonterminal (fetch : Nat → StatusResp) (pid : Option String) :
    ∀ fuel i, (∀ j, j < fuel → isTerminal (fetch (i + j)) = false) →
      statusCheckLoop fetch pid i fuel =
        ({ success := true, publish_id := pid, status := some "PROCESSING",
           error := none, note := some "Video is being processed by TikTok" }, fuel) := by
  intro fuel
  induction fuel with
  | zero => intro i _; rfl
  | succ n ih =>
    intro i h
    have h0 : isTerminal (fetch i) = false := by
      have := h 0 (Nat.succ_pos n)
      simpa using this
    have hrest : ∀ j, j < n → isTerminal (fetch (i + 1 + j)) = false := by
      intro j hj
      have := h (j + 1) (by omega)
      have harith : i + (j + 1) = i + 1 + j := by omega
      rwa [harith] at this
    unfold statusCheckLoop
    have hnc : ((fetch i).status_code == 200 &&
        (fetch i).status == some "PUBLISH_COMPLETE") = false := by
      unfold isTerminal at h0
      rcases Bool.and_eq_false_iff.mp h0 with h' | h'
      · simp [h']
      · rcases Bool.or_eq_false_iff.mp h' with ⟨h1, _⟩
        simp [h1]
    have hnf : ((fetch i).status_code == 200 &&
        (fetch i).status == some "FAILED") = false := by
      unfold isTerminal at h0
      rcases Bool.and_eq_false_iff.mp h0 with h' | h'
      · simp [h']
      · rcases Bool.or_eq_false_iff.mp h' with ⟨_, h2⟩
        simp [h2]
    rw [ih (i + 1) hrest]
    simp [hnc, hnf]

/-- C1: if no iteration within the budget observes a terminal status, the
poll loop runs exactly 10 iterations (10 status fetches) and returns a
success result with status `"PROCESSING"` and the job's publish id. -/
theorem poll_exhaustion_is_success (fetch : Nat → StatusResp) (pid : Option String)
    (h : ∀ j, j < 10 → isTerminal (fetch j) = false) :
    statusCheckLoop fetch pid 0 10 =
      ({ success := true, publish_id := pid, status := some "PROCESSING",
         error := none, note := some "Video is being processed by TikTok" }, 10) := by
  have := statusCheckLoop_nonterminal fetch pid 10 0 (by simpa using h)
  simpa using this

/-- Witness for C1: a status endpoint that always reports
`PROCESSING_UPLOAD` drives exactly 10 iterations and a `"PROCESSING"`
success. -/
theorem poll_exhaustion_is_success_witness :
    statusCheckLoop (fun _ => ⟨200, some "PROCESSING_UPLOAD", none⟩) (some "p1") 0 10 =
      ({ success := true, publish_id := some "p1", status := some "PROCESSING",
         error := none, note := some "Video is being processed by TikTok" }, 10) :=
  poll_exhaustion_is_success (fun _ => ⟨200, some "PROCESSING_UPLOAD", none⟩)
    (some "p1") (fun _ _ => rfl)

/-- C2: on any iteration whose transport succeeds with a terminal status
the loop returns at once with exactly one status fetch performed in that
call: `PUBLISH_COMPLETE` yields success carrying the publish id, `FAILED`
yields failure surfacing the provider's fail reason. -/
theorem poll_terminal_returns_immediately (fetch : Nat → StatusResp)
    (pid : Option String) (i fuel : Nat) (hcode : (fetch i).status_code = 200) :
    ((fetch i).status = some "PUBLISH_COMPLETE" →
      statusCheckLoop fetch pid i (fuel + 1) =
        ({ success := true, publish_id := pid, status := some "PUBLISH_COMPLETE",
           error := none, note := none }, 1)) ∧
    ((fetch i).status = some "FAILED" →
      statusCheckLoop fetch pid i (fuel + 1) =
        ({ success := false, publish_id := pid, status := none,
           error := some ("Publish failed: " ++ (fetch i).fail_reason.getD "Unknown"),
           note := none }, 1)) := by
  constructor
  · intro hs
    unfold statusCheckLoop
    simp [hcode, hs]
  · intro hs
    unfold statusCheckLoop
    simp [hcode, hs]

/-- Witness for C2: a first-iteration `PUBLISH_COMPLETE` returns success
with the original publish id after one fetch; a first-iteration `FAILED`
returns failure with the fail reason after one fetch. -/
theorem poll_terminal_returns_immediately_witness :
    (statusCheckLoop (fun _ => ⟨200, some "PUBLISH_COMPLETE", none⟩) (some "p1") 0 10 =
      ({ success := true, publish_id := some "p1", status := some "PUBLISH_COMPLETE",
         error := none, note := none }, 1)) ∧
    (statusCheckLoop (fun _ => ⟨200, some "FAILED", some "file_too_large"⟩) (some "p1") 0 10 =
      ({ success := false, publish_id := some "p1", status := none,
         error := some "Publish failed: file_too_large", note := none }, 1)) :=
  ⟨(poll_terminal_returns_immediately (fun _ => ⟨200, some "PUBLISH_COMPLETE", none⟩)
      (some "p1") 0 9 rfl).1 rfl,
   (poll_terminal_returns_immediately (fun _ => ⟨200, some "FAILED", some "file_too_large"⟩)
      (some "p1") 0 9 rfl).2 rfl⟩

/-! ## Upload orchestrator (`upload_video_direct`, lines 346-497)

The init response body: `error` models the optional `"error"` object
(`'error' in init_data`), `upload_url` / `publish_id` model
`init_data.get('data',{}).get(...)`. -/
structure ErrObj where
  code : Option String
  message : Option String
deriving Repr, DecidableEq

structure InitResp where
  status_code : Nat
  error : Option ErrObj
  upload_url : Option String
  publish_id : Option String
deriving Repr, DecidableEq

/-- `post_info` part of the init payload built at lines 374-381. -/
structure PostInfo where
  title : String
  privacy_level : String
  disable_duet : Bool
  disable_comment : Bool
  disable_stitch : Bool
  video_cover_timestamp_ms : Nat
deriving Repr, DecidableEq

/-- `source_info` part of the init payload built at lines 382-387. -/
structure SourceInfo where
  source : String
  video_size : Nat
  chunk_size : Nat
  total_chunk_count : Nat
deriving Repr, DecidableEq

structure InitPayload where
  post_info : PostInfo
  source_info : SourceInfo
deriving Repr, DecidableEq

/-- The `init_payload` dictionary.  `caption[:150]` slices the first 150
code points, `chunk_size` is `min(video_size, 10 * 1024 * 1024)`. -/
def mkInitPayload (caption privacy : String) (video_size : Nat) : InitPayload :=
  { post_info :=
      { title := ⟨caption.data.take 150⟩
        privacy_level := privacy
        disable_duet := false
        disable_comment := false
        disable_stitch := false
        video_cover_timestamp_ms := 1000 }
    source_info :=
      { source := "FILE_UPLOAD"
        video_size := video_size
        chunk_size := min video_size (10 * 1024 * 1024)
        total_chunk_count := 1 } }

/-- The responses the network supplies to one `upload_video_direct` call:
the init POST response, the HTTP status of the PUT to the upload url, and
the stream of status-fetch responses. -/
structure UploadEnv where
  init : InitResp
  putStatus : Nat
  fetch : Nat → StatusResp

/-- Observable requests issued by one `upload_video_direct` call:
the init body sent (when the init POST happens at all), how many PUT
transfers were issued, and how many status fetches were issued. -/
structure UploadTrace where
  initBody : Option InitPayload
  putCount : Nat
  fetchCount : Nat
deriving Repr, DecidableEq

/-- `'error' in init_data and init_data['error'].get('code') != 'ok'`. -/
def initErrorNotOk (ir : InitResp) : Bool :=
  match ir.error with
  | some e => e.code != some "ok"
  | none => false

/-- `init_data['error'].get('message', 'Unknown error')`, read only on the
branch where the `error` object is present. -/
def initErrorMsg (ir : InitResp) : String :=
  match ir.error with
  | some e => e.message.getD "Unknown error"
  | none => "Unknown error"

/-- `upload_video_direct(video_path, caption, access_token, privacy, ...)`.
`fileExists` models `video_path.exists()`; the access token, console
printing and the `details` diagnostic payloads are not observable here.
Returns the result dict together with the request trace. -/
def upload_video_direct (fileExists : Bool) (videoSize : Nat)
    (caption privacy : String) (env : UploadEnv) : UploadResult × UploadTrace :=
  if !fileExists then
    ({ success := false, publish_id := none, status := none,
       error := some "Video file not found", note := none },
     { initBody := none, putCount := 0, fetchCount := 0 })
  else
    -- Step 1: Initialize upload
    let payload := mkInitPayload caption privacy videoSize
    let tr0 : UploadTrace := { initBody := some payload, putCount := 0, fetchCount := 0 }
    if env.init.status_code != 200 then
      ({ success := false, publish_id := none, status := none,
         error := some ("Init failed: " ++ toString env.init.status_code),
         note := none }, tr0)
    else if initErrorNotOk env.init then
      ({ success := false, publish_id := none, status := none,
         error := some (initErrorMsg env.init), note := none }, tr0)
    else
      match env.init.upload_url with
      | none =>
        ({ success := false, publish_id := none, status := none,
           error := some "No upload URL received", note := none }, tr0)
      | some _uploadUrl =>
        -- Step 2: PUT the file to upload_url
        if !(env.putStatus == 200 || env.putStatus == 201) then
          ({ success := false, publish_id := none, status := none,
             error := some ("Upload failed: " ++ toString env.putStatus),
             note := none },
           { tr0 with putCount := 1 })
        else
          -- Step 3: poll the publish status
          let r := statusCheckLoop env.fetch env.init.publish_id 0 10
          (r.1, { tr0 with putCount := 1, fetchCount := r.2 })

/-- C3: the phases are strictly sequential.  With transport-successful
init: a payload-embedded error code other than `"ok"` makes publish fail
with the provider's error message (exactly the `message` field, default
`"Unknown error"`) and issue no PUT; with a clean init, a PUT status other
than 200/201 makes publish fail with `"Upload failed: <status>"` and issue
no status fetch. -/
theorem phases_abort_on_failure (videoSize : Nat) (caption privacy : String)
    (env : UploadEnv) (u : String) :
    (env.init.status_code = 200 → initErrorNotOk env.init = true →
      (upload_video_direct true videoSize caption privacy env).1.success = false ∧
      (upload_video_direct true videoSize caption privacy env).1.error =
        some (initErrorMsg env.init) ∧
      (upload_video_direct true videoSize caption privacy env).2.putCount = 0) ∧
    (env.init.status_code = 200 → initErrorNotOk env.init = false →
      env.init.upload_url = some u → env.putStatus ≠ 200 → env.putStatus ≠ 201 →
      (upload_video_direct true videoSize caption privacy env).1.success = false ∧
      (upload_video_direct true videoSize caption privacy env).1.error =
        some ("Upload failed: " ++ toString env.putStatus) ∧
      (upload_video_direct true videoSize caption privacy env).2.fetchCount = 0) := by
  constructor
  · intro hcode herr
    unfold upload_video_direct
    simp [hcode, herr]
  · intro hcode herr hurl hp200 hp201
    unfold upload_video_direct
    simp [hcode, herr, hurl, hp200, hp201]

/-- Witness for C3: scenario A (init error code `invalid_params`) issues
no PUT; scenario B (clean init, PUT returns 500) issues no status fetch
and reports `Upload failed: 500`. -/
theorem phases_abort_on_failure_witness :
    ((upload_video_direct true 5 "cap" "SELF_ONLY"
        { init := { status_code := 200,
                    error := some { code := some "invalid_params",
                                    message := some "invalid params" },
                    upload_url := none, publish_id := none },
          putStatus := 200, fetch := fun _ => ⟨200, none, none⟩ }).1.success = false ∧
     (upload_video_direct true 5 "cap" "SELF_ONLY"
        { init := { status_code := 200,
                    error := some { code := some "invalid_params",
                                    message := some "invalid params" },
                    upload_url := none, publish_id := none },
          putStatus := 200, fetch := fun _ => ⟨200, none, none⟩ }).1.error =
       some "invalid params" ∧
     (upload_video_direct true 5 "cap" "SELF_ONLY"
        { init := { status_code := 200,
                    error := some { code := some "invalid_params",
                                    message := some "invalid params" },
                    upload_url := none, publish_id := none },
          putStatus := 200, fetch := fun _ => ⟨200, none, none⟩ }).2.putCount = 0) ∧
    ((upload_video_direct true 5 "cap" "SELF_ONLY"
        { init := { status_code := 200, error := none,
                    upload_url := some "https://x", publish_id := some "p1" },
          putStatus := 500, fetch := fun _ => ⟨200, none, none⟩ }).1.success = false ∧
     (upload_video_direct true 5 "cap" "SELF_ONLY"
        { init := { status_code := 200, error := none,
                    upload_url := some "https://x", publish_id := some "p1" },
          putStatus := 500, fetch := fun _ => ⟨200, none, none⟩ }).1.error =
       some "Upload failed: 500" ∧
     (upload_video_direct true 5 "cap" "SELF_ONLY"
        { init := { status_code := 200, error := none,
                    upload_url := some "https://x", publish_id := some "p1" },
          putStatus := 500, fetch := fun _ => ⟨200, none, none⟩ }).2.fetchCount = 0) :=
  ⟨(phases_abort_on_failure 5 "cap" "SELF_ONLY"
      { init := { status_code := 200,
                  error := some { code := some "invalid_params",
                                  message := some "invalid params" },
                  upload_url := none, publish_id := none },
        putStatus := 200, fetch := fun _ => ⟨200, none, none⟩ } "").1 rfl rfl,
   (phases_abort_on_failure 5 "cap" "SELF_ONLY"
      { init := { status_code := 200, error := none,
                  upload_url := some "https://x", publish_id := some "p1" },
        putStatus := 500, fetch := fun _ => ⟨200, none, none⟩ } "https://x").2
      rfl rfl rfl (by decide) (by decide)⟩

/-- C7: whenever the init POST is issued, its body carries the caption
truncated to at most 150 code points, `chunk_size = min(fileSize, 10 MiB)`
and `total_chunk_count = 1`. -/
theorem init_payload_shape (videoSize : Nat) (caption privacy : String)
    (env : UploadEnv) :
    (upload_video_direct true videoSize caption privacy env).2.initBody =
      some (mkInitPayload caption privacy videoSize) ∧
    (mkInitPayload caption privacy videoSize).post_info.title =
      String.mk (caption.data.take 150) ∧
    (mkInitPayload caption privacy videoSize).post_info.title.length ≤ 150 ∧
    (mkInitPayload caption privacy videoSize).source_info.chunk_size =
      min videoSize (10 * 1024 * 1024) ∧
    (mkInitPayload caption privacy videoSize).source_info.total_chunk_count = 1 := by
  refine ⟨?_, rfl, ?_, rfl, rfl⟩
  · unfold upload_video_direct
    simp only [Bool.not_true, Bool.false_eq_true, if_false]
    split
    · rfl
    · split
      · rfl
      · split
        · rfl
        · split <;> rfl
  · show (caption.data.take 150).length ≤ 150
    exact le_trans (caption.data.length_take_le 150) (le_refl 150)

/-! ## OAuth callback handler and `authenticate` (lines 176-329)

A request is its path plus the parsed query string.  `parse_qs` maps each
key to the list of its values; the handler only ever reads `params[k][0]`
(respectively `params.get(k, [d])[0]`), so the query is modelled as an
association list and reads take the first binding for a key. -/
structure Request where
  path : String
  query : List (String × String)
deriving Repr, DecidableEq

/-- The mutable fields of `OAuthHTTPServer` that `CallbackHandler` sets. -/
structure OAuthServerState where
  auth_code : Option String
  error : Option String
deriving Repr, DecidableEq

/-- `CallbackHandler.do_GET`: returns the updated server state and the
HTTP response code sent back (the static HTML pages are not modelled). -/
def do_GET (st : OAuthServerState) (req : Request) : OAuthServerState × Nat :=
  if req.path == "/callback" then
    match req.query.lookup "code" with
    | some c => ({ auth_code := some c, error := st.error }, 200)
    | none =>
      ({ auth_code := none,
         error := some ((req.query.lookup "error").getD "unknown") }, 400)
  else
    (st, 404)

/-- Observable side-effecting steps of `authenticate`, in program order. -/
inductive AuthEvent where
  | genPKCE        -- generate_pkce()
  | bindPort       -- OAuthHTTPServer(('localhost', 8080), ...)
  | openBrowser    -- webbrowser.open(auth_url)
  | acceptRequest  -- server.handle_request() accepts and handles a request
  | closeServer    -- server.server_close()
  | tokenExchange  -- POST {API_BASE}/oauth/token/
  | storeTokens    -- save_tokens(tokens)
deriving Repr, DecidableEq

/-- Token-exchange response, reduced to what `authenticate` inspects. -/
structure ExchangeResp where
  status_code : Nat
  has_access_token : Bool
deriving Repr, DecidableEq

/-- `authenticate(account)`.  `bindOk` models whether binding port 8080
succeeds; `pending` is the queue of incoming HTTP connections, of which
`server.handle_request()` takes exactly one; `exchange` is the token
endpoint's response.  An empty `pending` models `handle_request` blocking
forever (no request ever arrives, nothing further happens).  Returns the
boolean result and the trace of side-effecting steps performed. -/
def authenticate (clientKey clientSecret _account : String) (bindOk : Bool)
    (pending : List Request) (exchange : ExchangeResp) : Bool × List AuthEvent :=
  if clientKey == "" || clientSecret == "" then
    (false, [])
  else
    -- code_challenge = generate_pkce(); auth URL built from it
    if !bindOk then
      (false, [.genPKCE])
    else
      match pending with
      | [] => (false, [.genPKCE, .bindPort, .openBrowser])
      | req :: _ =>
        let st := (do_GET { auth_code := none, error := none } req).1
        let evs : List AuthEvent :=
          [.genPKCE, .bindPort, .openBrowser, .acceptRequest, .closeServer]
        match st.auth_code with
        | none => (false, evs)
        | some _code =>
          if exchange.status_code != 200 then
            (false, evs ++ [.tokenExchange])
          else if !exchange.has_access_token then
            (false, evs ++ [.tokenExchange])
          else
            (true, evs ++ [.tokenExchange, .storeTokens])

/-- `true` iff no `tokenExchange` event occurs before a `closeServer`
event: the listener is shut down before any further processing. -/
def closedBeforeExchange : List AuthEvent → Bool
  | [] => true
  | .tokenExchange :: _ => false
  | .closeServer :: _ => true
  | _ :: rest => closedBeforeExchange rest

/-- C8: on a callback-path request, a `code` query parameter is captured
as the authorization code; with no `code` but an `error` parameter, the
error string is captured and the captured code is `none` — the outcomes
are mutually exclusive. -/
theorem callback_captures_code_xor_error (st : OAuthServerState)
    (q : List (String × String)) :
    (∀ c, q.lookup "code" = some c →
      do_GET st { path := "/callback", query := q } =
        ({ auth_code := some c, error := st.error }, 200)) ∧
    (∀ e, q.lookup "code" = none → q.lookup "error" = some e →
      do_GET st { path := "/callback", query := q } =
        ({ auth_code := none, error := some e }, 400)) := by
  constructor
  · intro c hc
    unfold do_GET
    simp [hc]
  · intro e hc he
    unfold do_GET
    simp [hc, he]

/-- Witness for C8: `code=ABC` is captured as the code;
`error=access_denied` is captured as the error with no code. -/
theorem callback_captures_code_xor_error_witness :
    (do_GET { auth_code := none, error := none }
        { path := "/callback", query := [("code", "ABC")] } =
      ({ auth_code := some "ABC", error := none }, 200)) ∧
    (do_GET { auth_code := none, error := none }
        { path := "/callback", query := [("error", "access_denied")] } =
      ({ auth_code := none, error := some "access_denied" }, 400)) :=
  ⟨(callback_captures_code_xor_error { auth_code := none, error := none }
      [("code", "ABC")]).1 "ABC" rfl,
   (callback_captures_code_xor_error { auth_code := none, error := none }
      [("error", "access_denied")]).2 "access_denied" rfl rfl⟩

/-- C9: with the client key or client secret unconfigured, `authenticate`
returns failure with an empty trace: no PKCE generation, no port binding,
no browser launch, no token exchange — hence no retry of anything. -/
theorem authenticate_fails_fast_on_missing_config
    (clientKey clientSecret account : String) (bindOk : Bool)
    (pending : List Request) (exchange : ExchangeResp)
    (h : clientKey = "" ∨ clientSecret = "") :
    authenticate clientKey clientSecret account bindOk pending exchange =
      (false, []) := by
  unfold authenticate
  rcases h with h | h <;> simp [h]

/-- Witness for C9: an empty client key fails immediately with no
side-effecting step. -/
theorem authenticate_fails_fast_on_missing_config_witness :
    authenticate "" "secret" "default" true
      [{ path := "/callback", query := [("code", "ABC")] }] ⟨200, true⟩ =
      (false, []) :=
  authenticate_fails_fast_on_missing_config "" "secret" "default" true
    [{ path := "/callback", query := [("code", "ABC")] }] ⟨200, true⟩ (Or.inl rfl)

/-- C6: every `authenticate` run accepts at most one HTTP request, and the
listener is closed before the token exchange (so before any further
processing); hence at most one authorization session exists per
invocation. -/
theorem authenticate_single_session
    (clientKey clientSecret account : String) (bindOk : Bool)
    (pending : List Request) (exchange : ExchangeResp) :
    (authenticate clientKey clientSecret account bindOk pending exchange).2.count
        .acceptRequest ≤ 1 ∧
    closedBeforeExchange
      (authenticate clientKey clientSecret account bindOk pending exchange).2 = true := by
  unfold authenticate
  split
  · exact ⟨by decide, by decide⟩
  · split
    · exact ⟨by decide, by decide⟩
    · split
      · exact ⟨by decide, by decide⟩
      · rename_i req _
        rcases hst : (do_GET { auth_code := none, error := none } req).1.auth_code with _ | c
        · simp only [hst]
          exact ⟨by decide, by decide⟩
        · simp only [hst]
          split
          · exact ⟨by decide, by decide⟩
          · split
            · exact ⟨by decide, by decide⟩
            · exact ⟨by decide, by decide⟩

/-- Follows the spec's words ("the listener keeps waiting for a request to
the correct path"), for comparison with the code: scan the pending
requests in order and produce the Authorization Session from the first
request whose path is the callback path, skipping (404-ing) the others. -/
def specKeepWaitingSession : List Request → Option OAuthServerState
  | [] => none
  | req :: rest =>
    if req.path == "/callback" then
      some (do_GET { auth_code := none, error := none } req).1
    else
      specKeepWaitingSession rest

/-- Counterexample to C5: with a non-callback first request followed by a
valid callback request, the keep-waiting reading would capture code
`"ABC"`, but `authenticate` handles only the first request (it is 404'd,
the listener is closed) and fails — the listener does not keep waiting. -/
theorem noncallback_keeps_waiting_counterexample :
    (do_GET { auth_code := none, error := none }
        { path := "/favicon.ico", query := [] } =
      ({ auth_code := none, error := none }, 404)) ∧
    specKeepWaitingSession
        [{ path := "/favicon.ico", query := [] },
         { path := "/callback", query := [("code", "ABC")] }] =
      some { auth_code := some "ABC", error := none } ∧
    authenticate "k" "s" "default" true
        [{ path := "/favicon.ico", query := [] },
         { path := "/callback", query := [("code", "ABC")] }] ⟨200, true⟩ =
      (false, [.genPKCE, .bindPort, .openBrowser, .acceptRequest, .closeServer]) := by
  refine ⟨rfl, rfl, rfl⟩

/-- C5 as amended: a request to a path other than the callback path is
answered 404 and captures neither code nor error; but since the listener
handles exactly one request overall, a non-callback first request makes
`authenticate` fail immediately instead of waiting for a later
callback-path request. -/
theorem noncallback_404_single_request (st : OAuthServerState) (req : Request)
    (rest : List Request) (key secret account : String) (exchange : ExchangeResp)
    (hpath : req.path ≠ "/callback") (hk : key ≠ "") (hs : secret ≠ "") :
    do_GET st req = (st, 404) ∧
    authenticate key secret account true (req :: rest) exchange =
      (false, [.genPKCE, .bindPort, .openBrowser, .acceptRequest, .closeServer]) := by
  have hpb : (req.path == "/callback") = false := by
    simp [hpath]
  constructor
  · unfold do_GET
    simp [hpb]
  · unfold authenticate
    simp [hk, hs, do_GET, hpb]

/-- Witness for the amended C5: a `/favicon.ico` request (even one
carrying a `code` parameter) is 404'd and ends the session at once. -/
theorem noncallback_404_single_request_witness :
    ("/favicon.ico" : String) ≠ "/callback" ∧
    do_GET { auth_code := none, error := none }
        { path := "/favicon.ico", query := [("code", "ABC")] } =
      ({ auth_code := none, error := none }, 404) ∧
    authenticate "k" "s" "default" true
        [{ path := "/favicon.ico", query := [("code", "ABC")] }] ⟨200, true⟩ =
      (false, [.genPKCE, .bindPort, .openBrowser, .acceptRequest, .closeServer]) := by
  refine ⟨by decide, ?_⟩
  exact noncallback_404_single_request { auth_code := none, error := none }
    { path := "/favicon.ico", query := [("code", "ABC")] } [] "k" "s" "default"
    ⟨200, true⟩ (by decide) (by decide) (by decide)

/-! ## Token refresh (`refresh_access_token`, lines 114-144)

The persisted token store is a mapping from account name to credential;
only the fields the function touches are modelled (`update` keeps the
other keys of the Python dict unchanged, which is invisible here). -/
structure Cred where
  access_token : String
  refresh_token : String
  refreshed_at : String
deriving Repr, DecidableEq

/-- Token-endpoint response, reduced to what `refresh_access_token`
inspects: the HTTP status and the optional token fields of the JSON. -/
structure TokenResp where
  status_code : Nat
  access_token : Option String
  refresh_token : Option String
deriving Repr, DecidableEq

/-- `tokens[account] = new` on an association-list store. -/
def storeSet : List (String × Cred) → String → Cred → List (String × Cred)
  | [], k, v => [(k, v)]
  | (k', v') :: rest, k, v =>
    if k' == k then (k', v) :: rest else (k', v') :: storeSet rest k v

/-- `refresh_access_token(account)`.  `resp` is the exchange response,
`now` stands for `datetime.now().isoformat()`.  Returns the boolean
result, the store as left on disk, and the number of `save_tokens`
calls. -/
def refresh_access_token (store : List (String × Cred)) (account : String)
    (resp : TokenResp) (now : String) : Bool × List (String × Cred) × Nat :=
  match store.lookup account with
  | none => (false, store, 0)
  | some cred =>
    if cred.refresh_token == "" then
      (false, store, 0)
    else if resp.status_code != 200 then
      (false, store, 0)
    else
      match resp.access_token with
      | none => (false, store, 0)
      | some tok =>
        let newCred : Cred :=
          { access_token := tok
            refresh_token := resp.refresh_token.getD cred.refresh_token
            refreshed_at := now }
        (true, storeSet store account newCred, 1)

/-- C10: token refresh is atomic with respect to the store — every
failing path (unknown account, empty stored refresh token, non-200
response, missing access token) performs no save and leaves the store
untouched; the store is saved (exactly once) only on success. -/
theorem refresh_is_atomic (store : List (String × Cred)) (account : String)
    (resp : TokenResp) (now : String) :
    ((refresh_access_token store account resp now).1 = false →
      (refresh_access_token store account resp now).2.1 = store ∧
      (refresh_access_token store account resp now).2.2 = 0) ∧
    ((refresh_access_token store account resp now).1 = true →
      (refresh_access_token store account resp now).2.2 = 1) := by
  unfold refresh_access_token
  rcases h : store.lookup account with _ | cred
  · simp [h]
  · simp only [h]
    split
    · simp
    · split
      · simp
      · rcases ha : resp.access_token with _ | tok
        · simp [ha]
        · simp [ha]

/-- Witness for C10: refreshing an account with an empty stored refresh
token fails and leaves the one-entry store exactly as it was, with no
save. -/
theorem refresh_is_atomic_witness :
    (refresh_access_token [("default", ⟨"at0", "", "t0"⟩)] "default"
        ⟨200, some "at1", none⟩ "t1").2.1 = [("default", ⟨"at0", "", "t0"⟩)] ∧
    (refresh_access_token [("default", ⟨"at0", "", "t0"⟩)] "default"
        ⟨200, some "at1", none⟩ "t1").2.2 = 0 :=
  (refresh_is_atomic [("default", ⟨"at0", "", "t0"⟩)] "default"
    ⟨200, some "at1", none⟩ "t1").1 rfl

/-! ## PKCE generation (`generate_pkce`, lines 229-235)

Bytes and ASCII strings are `List Nat`.  `base64.urlsafe_b64encode` is
embedded concretely; `hashlib.sha256` is a library call and is passed in
abstractly as a digest function. -/

/-- ASCII code of entry `i` of the URL-safe base64 alphabet
(`A-Z a-z 0-9 - _`). -/
def b64Char (i : Nat) : Nat :=
  if i < 26 then 65 + i
  else if i < 52 then 97 + (i - 26)
  else if i < 62 then 48 + (i - 52)
  else if i == 62 then 45
  else 95

/-- Membership of an ASCII code in the URL-safe alphabet. -/
def isUrlSafe (c : Nat) : Bool :=
  decide (65 ≤ c ∧ c ≤ 90) || decide (97 ≤ c ∧ c ≤ 122) ||
    decide (48 ≤ c ∧ c ≤ 57) || decide (c = 45) || decide (c = 95)

/-- `base64.urlsafe_b64encode`: three input bytes become four alphabet
characters; a trailing group of one or two bytes is padded with `'='`
(ASCII 61). -/
def b64urlEncode : List Nat → List Nat
  | [] => []
  | [b1] => [b64Char (b1 / 4), b64Char (b1 % 4 * 16), 61, 61]
  | [b1, b2] =>
    [b64Char (b1 / 4), b64Char (b1 % 4 * 16 + b2 / 16), b64Char (b2 % 16 * 4), 61]
  | b1 :: b2 :: b3 :: rest =>
    b64Char (b1 / 4) :: b64Char (b1 % 4 * 16 + b2 / 16) ::
      b64Char (b2 % 16 * 4 + b3 / 64) :: b64Char (b3 % 64) :: b64urlEncode rest

/-- `.rstrip('=')` on an ASCII string. -/
def rstripEq (l : List Nat) : List Nat :=
  (l.reverse.dropWhile (fun c => c == 61)).reverse

/-- `secrets.token_urlsafe(n)` = base64url of `n` random bytes with the
padding stripped; `randBytes` stands for `os.urandom(n)`. -/
def token_urlsafe (randBytes : List Nat) : List Nat :=
  rstripEq (b64urlEncode randBytes)

/-- `generate_pkce()`: the verifier is `secrets.token_urlsafe(64)[:128]`
(the Python source stores it in the module-global `_code_verifier` and
returns only the challenge; both are returned here), the challenge is
`base64.urlsafe_b64encode(sha256(verifier)).rstrip('=')`. -/
def generate_pkce (sha256 : List Nat → List Nat) (randBytes : List Nat) :
    List Nat × List Nat :=
  let verifier := (token_urlsafe randBytes).take 128
  let challenge := rstripEq (b64urlEncode (sha256 verifier))
  (verifier, challenge)

theorem b64Char_urlSafe (i : Nat) : isUrlSafe (b64Char i) = true := by
  unfold b64Char isUrlSafe
  split
  · simp; omega
  · split
    · simp; omega
    · split
      · simp; omega
      · split
        · simp
        · simp

theorem urlSafe_ne_pad {c : Nat} (h : isUrlSafe c = true) : (c == 61) = false := by
  simp only [isUrlSafe, Bool.or_eq_true, decide_eq_true_eq] at h
  simp only [beq_eq_false_iff_ne, ne_eq]
  omega

/-- Every base64url encoding splits into a body of alphabet characters
followed by the `'='` padding; the body has `⌈4n/3⌉` characters. -/
theorem b64urlEncode_split : ∀ l : List Nat, ∃ body pad,
    b64urlEncode l = body ++ pad ∧
    (∀ c ∈ body, isUrlSafe c = true) ∧
    (∀ c ∈ pad, c = 61) ∧
    body.length = (4 * l.length + 2) / 3
  | [] => ⟨[], [], rfl, by simp, by simp, by simp⟩
  | [b1] =>
    ⟨[b64Char (b1 / 4), b64Char (b1 % 4 * 16)], [61, 61], rfl, by
      intro c hc
      simp only [List.mem_cons, List.not_mem_nil, or_false] at hc
      rcases hc with h | h <;> (subst h; exact b64Char_urlSafe _), by
      intro c hc
      simp only [List.mem_cons, List.not_mem_nil, or_false] at hc
      rcases hc with h | h <;> exact h, by simp⟩
  | [b1, b2] =>
    ⟨[b64Char (b1 / 4), b64Char (b1 % 4 * 16 + b2 / 16), b64Char (b2 % 16 * 4)],
      [61], rfl, by
      intro c hc
      simp only [List.mem_cons, List.not_mem_nil, or_false] at hc
      rcases hc with h | h | h <;> (subst h; exact b64Char_urlSafe _), by
      intro c hc
      simp only [List.mem_cons, List.not_mem_nil, or_false] at hc
      exact hc, by simp⟩
  | b1 :: b2 :: b3 :: rest => by
    obtain ⟨body, pad, h1, h2, h3, h4⟩ := b64urlEncode_split rest
    refine ⟨b64Char (b1 / 4) :: b64Char (b1 % 4 * 16 + b2 / 16) ::
      b64Char (b2 % 16 * 4 + b3 / 64) :: b64Char (b3 % 64) :: body, pad, ?_, ?_, h3, ?_⟩
    · show b64Char (b1 / 4) :: b64Char (b1 % 4 * 16 + b2 / 16) ::
        b64Char (b2 % 16 * 4 + b3 / 64) :: b64Char (b3 % 64) :: b64urlEncode rest = _
      rw [h1]
      simp [List.cons_append]
    · intro c hc
      simp only [List.mem_cons] at hc
      rcases hc with h | h | h | h | h
      · subst h; exact b64Char_urlSafe _
      · subst h; exact b64Char_urlSafe _
      · subst h; exact b64Char_urlSafe _
      · subst h; exact b64Char_urlSafe _
      · exact h2 c h
    · simp only [List.length_cons]
      omega

/-- Stripping the trailing `'='` of an encoding recovers exactly the
alphabet-character body. -/
theorem rstripEq_body_pad {body pad : List Nat}
    (hb : ∀ c ∈ body, isUrlSafe c = true) (hp : ∀ c ∈ pad, c = 61) :
    rstripEq (body ++ pad) = body := by
  unfold rstripEq
  rw [List.reverse_append]
  rw [List.dropWhile_append_of_pos (by
    intro a ha
    have : a ∈ pad := List.mem_reverse.mp ha
    simp [hp a this])]
  rcases hrev : body.reverse with _ | ⟨c, cs⟩
  · have hnil : body = [] := by
      have := congrArg List.reverse hrev
      simpa using this
    simp [hnil]
  · have hc : c ∈ body := by
      have : c ∈ body.reverse := by
        rw [hrev]; exact List.mem_cons_self c cs
      exact List.mem_reverse.mp this
    have h61 : (c == 61) = false := urlSafe_ne_pad (hb c hc)
    rw [List.dropWhile_cons_of_neg (by simp [h61])]
    rw [← hrev, List.reverse_reverse]

/-- C4: for every generated PKCE pair (any digest function, 64 random
bytes), the challenge is exactly the padding-stripped base64url of the
digest of the verifier, and the verifier is a string over the URL-safe
alphabet whose length (86) lies within [43, 128]. -/
theorem pkce_pair_spec (sha256 : List Nat → List Nat) (randBytes : List Nat)
    (hlen : randBytes.length = 64) :
    (generate_pkce sha256 randBytes).2 =
      rstripEq (b64urlEncode (sha256 (generate_pkce sha256 randBytes).1)) ∧
    43 ≤ (generate_pkce sha256 randBytes).1.length ∧
    (generate_pkce sha256 randBytes).1.length ≤ 128 ∧
    (generate_pkce sha256 randBytes).1.all isUrlSafe = true := by
  obtain ⟨body, pad, h1, h2, h3, h4⟩ := b64urlEncode_split randBytes
  have htok : token_urlsafe randBytes = body := by
    unfold token_urlsafe
    rw [h1]
    exact rstripEq_body_pad h2 h3
  have hblen : body.length = 86 := by
    rw [h4, hlen]
  have hver : (generate_pkce sha256 randBytes).1 = body := by
    show (token_urlsafe randBytes).take 128 = body
    rw [htok]
    exact List.take_of_length_le (by omega)
  refine ⟨rfl, ?_, ?_, ?_⟩
  · rw [hver, hblen]; omega
  · rw [hver, hblen]; omega
  · rw [hver]
    exact List.all_eq_true.mpr h2

/-- Witness for C4: with a dummy digest and an all-zero random block, the
generated pair satisfies the bounds and the challenge equation. -/
theorem pkce_pair_spec_witness :
    (generate_pkce (fun _ => List.replicate 32 7) (List.replicate 64 0)).2 =
      rstripEq (b64urlEncode ((fun _ => List.replicate 32 7)
        (generate_pkce (fun _ => List.replicate 32 7) (List.replicate 64 0)).1)) ∧
    43 ≤ (generate_pkce (fun _ => List.replicate 32 7) (List.replicate 64 0)).1.length ∧
    (generate_pkce (fun _ => List.replicate 32 7) (List.replicate 64 0)).1.length ≤ 128 ∧
    (generate_pkce (fun _ => List.replicate 32 7)
      (List.replicate 64 0)).1.all isUrlSafe = true :=
  pkce_pair_spec (fun _ => List.replicate 32 7) (List.replicate 64 0) (by decide)

end SpeakCycle
